import Mathlib

/-!
Shallow embedding of the `lemmy_summarizer` ingestion-and-decision pipeline
(`src/summary_bot.py` and `src/utils/postutils.py`).

Remote collaborators (the Lemmy API client, the HTTP transport, `tldextract`,
the HTML scraper and the summarizer) are modelled as oracle functions carried
in an `Env` record.  Effects are made observable: `safe_api_call` returns,
next to its result, the number of invocations it made and the list of sleep
durations; the per-post loop of `run_bot` returns the list of externally
visible events (article fetches, scraper and summarizer invocations, rendered
comments, processed-log writes) it performs.
-/

/-- A feed post as consumed by the bot: the inner `post` record of a
`post_view`.  The bot reads `post['id']` (stringified at line 90 of
`summary_bot.py`), `post['ap_id']`, `post['url']` (optional: line 91 checks
key membership) and `post['deleted']` (read by `get_posts_deep`). -/
structure Post where
  id : String
  ap_id : String
  url : Option String
  deleted : Bool
deriving DecidableEq

/-- One element of a `lemmy.post.list` response page: the wrapped post plus
the wrapper-level `saved` flag used by `get_posts_deep`. -/
structure Entry where
  post : Post
  saved : Bool
deriving DecidableEq

/-- An HTTP response as used by the bot: the `content-type` header, the
declared `encoding`, and the decoded body, which in `requests` depends on the
encoding currently set on the response object — modelled as a function from
encoding name to decoded text. -/
structure Response where
  content_type : String
  encoding : String
  text : String → String

/-- The dictionary returned by `summary.get_summary` as consumed by
`run_bot`: an integer reduction percentage, the top sentences and the top
words. -/
structure Summary where
  reduction : Int
  top_sentences : List String
  top_words : List String
deriving DecidableEq

/-- Modelled from the spec: the comment template `templates/en.txt` is not
part of `src/`; per the spec it is a single text file with five ordered
positional placeholders (title, url, reduction, date, quoted body).  We model
it as the fixed text surrounding those five fields. -/
structure Template where
  s0 : String
  s1 : String
  s2 : String
  s3 : String
  s4 : String
  s5 : String

/-- Modelled from the spec: `TEMPLATE.format(title, url, reduction, date,
body)` substitutes the five fields, in order, between the template's fixed
text pieces. -/
def Template.format (t : Template) (title url : String) (reduction : Int)
    (date body : String) : String :=
  t.s0 ++ title ++ t.s1 ++ url ++ t.s2 ++ toString reduction ++ t.s3 ++ date ++
    t.s4 ++ body ++ t.s5

/-- Externally visible actions of the per-post loop of `run_bot`. -/
inductive Event where
  | fetch (url : String)
  | scrape (html : String)
  | summarize (body : String)
  | comment (ap_id body : String)
  | updateLog (id : String)
deriving DecidableEq

/-- Oracles for the external collaborators of `run_bot`.  Attempt-indexed
oracles (`login`, `pageFetch`) give the result of the k-th invocation of the
wrapped operation, so that retry behaviour is observable.  `http`,
`scrape_html` and `get_summary` return `none` where the Python collaborator
raises an exception. -/
structure Env where
  login : Nat → Bool
  pageFetch : Nat → Nat → List Entry
  extract : String → String × String
  http : String → Option Response
  scrape_html : String → Option (String × String × String)
  get_summary : String → Option Summary
  tpl : Template

/-- Replacement loop of Python `str.replace` for a nonempty pattern: replace
every non-overlapping occurrence of `pat`, scanning left to right.  The fuel
is the length of the scanned list, which bounds the number of steps, each of
which consumes at least one character. -/
def replaceAllGo (pat repl : List Char) : Nat → List Char → List Char
  | 0, l => l
  | _ + 1, [] => []
  | fuel + 1, c :: rest =>
    if pat.isPrefixOf (c :: rest) then
      repl ++ replaceAllGo pat repl fuel (List.drop (pat.length - 1) rest)
    else
      c :: replaceAllGo pat repl fuel rest

/-- Python `str.replace(pat, repl)` (all occurrences), as used at line 92 of
`summary_bot.py`: `post['url'].replace("amp.", "")`.  Empty patterns do not
occur at the call site and are left as the identity. -/
def pyReplace (s pat repl : String) : String :=
  if pat.data.isEmpty then s
  else ⟨replaceAllGo pat.data repl.data s.data.length s.data⟩

/-- Python substring membership `pat in s`, on character lists. -/
def containsSeq (pat : List Char) : List Char → Bool
  | [] => pat.isEmpty
  | c :: rest => pat.isPrefixOf (c :: rest) || containsSeq pat rest

/-- Python `str.lower()` restricted to the ASCII range, which covers the
`"iso-8859-1"` marker the bot searches for. -/
def lowerData (s : String) : List Char := s.data.map Char.toLower

/-- Lines 109-114 of `summary_bot.py`: the encoding finally set on the
response before `html_source = response.text` is read.  `text` is the decoded
body under the declared encoding. -/
def fix_encoding (text encoding : String) : String :=
  if containsSeq ("iso-8859-1").data (lowerData text) then "iso-8859-1"
  else if encoding = "ISO-8859-1" then "utf-8"
  else encoding

/-- The `html_source` handed to the scraper (line 116): the body decoded
under the corrected encoding of lines 109-114. -/
def html_of (resp : Response) : String :=
  resp.text (fix_encoding (resp.text resp.encoding) resp.encoding)

/-- Line 22 of `summary_bot.py`. -/
def MINIMUM_REDUCTION_THRESHOLD : Int := 50

/-- Line 23 of `summary_bot.py`. -/
def MAXIMUM_REDUCTION_THRESHOLD : Int := 96

/-- Content types blocked at lines 103-104 of `summary_bot.py`. -/
def blockedContentTypes : List String :=
  ["image/png", "image/jpeg", "image/jpg", "image/gif", "image/mp4"]

/-- The `top_words` accumulation loop of lines 133-136 of `summary_bot.py`:
`top_words += "{}^#{} ".format(word, index + 1)` over `enumerate`. -/
def rankWordsGo : Nat → List String → String
  | _, [] => ""
  | i, w :: ws => w ++ "^#" ++ toString (i + 1) ++ " " ++ rankWordsGo (i + 1) ws

/-- The fully accumulated `top_words` string (1-based ranks). -/
def rankWords (ws : List String) : String := rankWordsGo 0 ws

/-- Lines 130-131 of `summary_bot.py`: each top sentence prefixed with a
block-quote marker, joined by blank lines. -/
def quotedBody (sentences : List String) : String :=
  String.intercalate "\n\n" (sentences.map (fun s => "> " ++ s))

deriving instance DecidableEq for Except

/-- Observable outcome of `PostUtils.safe_api_call`: the returned value or
the fatal `RuntimeError`, together with the number of invocations of the
wrapped operation and the sleep durations (seconds) between attempts. -/
structure CallResult (α : Type) where
  result : Except Unit α
  calls : Nat
  sleeps : List Nat
deriving DecidableEq

/-- The loop `while not (response := fun(**kwargs)) and retries < 10` of
`PostUtils.safe_api_call`.  `f k` is the result of the k-th invocation of the
wrapped operation and `falsy` is Python truth-testing of that result.  The
fuel equals `10 - retries`, so the fuel-0 case is exactly the final
iteration, in which the loop condition fails because `retries < 10` does; the
walrus assignment still invokes the operation once there.  Returns (last
response, final retries, invocation count, sleep list). -/
def safe_api_call_go {α : Type} (f : Nat → α) (falsy : α → Bool) :
    Nat → Nat → Nat → List Nat → α × Nat × Nat × List Nat
  | 0, callIdx, retries, sleeps => (f callIdx, retries, callIdx + 1, sleeps)
  | fuel + 1, callIdx, retries, sleeps =>
    let response := f callIdx
    if falsy response = true ∧ retries < 10 then
      safe_api_call_go f falsy fuel (callIdx + 1) (retries + 1)
        (sleeps ++ [(retries + 1) * 5])
    else
      (response, retries, callIdx + 1, sleeps)

/-- PostUtils.safe_api_call of `src/utils/postutils.py` lines 12-22, with
`retries` starting at 1 and fuel `9 = 10 - 1`.  `Except.error` models the
`RuntimeError("Failed to invoke Lemmy API")` raised when the loop exits with
`retries >= 10`. -/
def safe_api_call {α : Type} (f : Nat → α) (falsy : α → Bool) : CallResult α :=
  let t := safe_api_call_go f falsy 9 0 1 []
  if t.2.1 ≥ 10 then ⟨Except.error (), t.2.2.1, t.2.2.2⟩
  else ⟨Except.ok t.1, t.2.2.1, t.2.2.2⟩

/-- PostUtils.get_posts_deep of `src/utils/postutils.py` lines 25-42: five
feed pages fetched in order 1..5, each through `safe_api_call` (a page
response is falsy exactly when it is the empty list), keeping non-deleted
posts, and additionally only saved entries when `saved_only` is set.
`Except.error` models the propagated `RuntimeError`. -/
def get_posts_deep (pageFetch : Nat → Nat → List Entry) (saved_only : Bool) :
    Except Unit (List Post) :=
  ([1, 2, 3, 4, 5] : List Nat).foldl
    (fun acc i =>
      match acc with
      | Except.error e => Except.error e
      | Except.ok posts =>
        match (safe_api_call (fun k => pageFetch i k) (fun l => l.isEmpty)).result with
        | Except.error _ => Except.error ()
        | Except.ok response =>
          if saved_only then
            Except.ok (posts ++
              (response.filter (fun e => !e.post.deleted && e.saved)).map Entry.post)
          else
            Except.ok (posts ++
              (response.filter (fun e => !e.post.deleted)).map Entry.post))
    (Except.ok [])

/-- Line 92 of `summary_bot.py`:
`clean_url = post['url'].replace("amp.", "")`. -/
def clean_url_of (u : String) : String := pyReplace u "amp." ""

/-- Lines 93-94 of `summary_bot.py`: `ext = tldextract.extract(clean_url)`
followed by `domain = "{}.{}".format(ext.domain, ext.suffix)`. -/
def blocklist_key (env : Env) (u : String) : String :=
  (env.extract (clean_url_of u)).1 ++ "." ++ (env.extract (clean_url_of u)).2

/-- The body of the `for post in posts` loop of `run_bot` (lines 89-146 of
`summary_bot.py`) for a single post, as the list of events it performs.
`processed` is the snapshot `processed_posts` loaded at line 83 (the source
never refreshes it inside the loop) and `blocklist` the snapshot of line 84.
The blocklist branch (line 97) is a bare `continue`: it emits no event, in
particular no processed-log write. -/
def process_post (env : Env) (blocklist processed : List String) (p : Post) :
    List Event :=
  match p.url with
  | none => []
  | some u =>
    if p.id ∈ processed then []
    else if blocklist_key env u ∈ blocklist then []
    else
      Event.fetch (clean_url_of u) ::
        match env.http (clean_url_of u) with
        | none => [Event.updateLog p.id]
        | some resp =>
          if resp.content_type ∈ blockedContentTypes then
            [Event.updateLog p.id]
          else
            Event.scrape (html_of resp) ::
              match env.scrape_html (html_of resp) with
              | none => [Event.updateLog p.id]
              | some (title, date, body) =>
                Event.summarize body ::
                  match env.get_summary body with
                  | none => [Event.updateLog p.id]
                  | some sd =>
                    if MINIMUM_REDUCTION_THRESHOLD ≤ sd.reduction ∧
                        sd.reduction ≤ MAXIMUM_REDUCTION_THRESHOLD then
                      let _top_words := rankWords sd.top_words
                      [Event.comment p.ap_id
                          (env.tpl.format title (clean_url_of u) sd.reduction date
                            (quotedBody sd.top_sentences)),
                        Event.updateLog p.id]
                    else
                      [Event.updateLog p.id]

/-- The whole `for post in posts` loop of `run_bot`, in feed order. -/
def run_bot_loop (env : Env) (blocklist processed : List String) :
    List Post → List Event
  | [] => []
  | p :: rest =>
      process_post env blocklist processed p ++ run_bot_loop env blocklist processed rest

/-- The post ids appended to the processed-posts log by a list of events, in
order of the `update_log` calls. -/
def logged_ids (events : List Event) : List String :=
  events.filterMap fun e =>
    match e with
    | Event.updateLog i => some i
    | _ => none

/-- One cycle of `run_bot` (lines 82-146 of `summary_bot.py`): log in through
`safe_api_call`, fetch the feed through `get_posts_deep` (the `RuntimeError`
of either propagates), then run the per-post loop.  Returns the event trace
of the loop. -/
def run_bot (env : Env) (processed blocklist : List String) :
    Except Unit (List Event) :=
  match (safe_api_call env.login (fun b => !b)).result with
  | Except.error _ => Except.error ()
  | Except.ok _ =>
    match get_posts_deep env.pageFetch false with
    | Except.error _ => Except.error ()
    | Except.ok posts => Except.ok (run_bot_loop env blocklist processed posts)

/-! ### Helper lemmas about `safe_api_call` -/

/-- Unfolding lemma: the fuel-0 iteration of the retry loop. -/
theorem safe_api_call_go_zero {α : Type} (f : Nat → α) (falsy : α → Bool)
    (c r : Nat) (s : List Nat) :
    safe_api_call_go f falsy 0 c r s = (f c, r, c + 1, s) := rfl

/-- Unfolding lemma: one non-final iteration of the retry loop. -/
theorem safe_api_call_go_succ {α : Type} (f : Nat → α) (falsy : α → Bool)
    (fuel c r : Nat) (s : List Nat) :
    safe_api_call_go f falsy (fuel + 1) c r s =
      if falsy (f c) = true ∧ r < 10 then
        safe_api_call_go f falsy fuel (c + 1) (r + 1) (s ++ [(r + 1) * 5])
      else (f c, r, c + 1, s) := rfl

/-- Sleep durations produced by the retry loop when it starts from retry
counter `r` and runs through `fuel` more failing iterations. -/
def sleepsFrom (r : Nat) : Nat → List Nat
  | 0 => []
  | n + 1 => (r + 1) * 5 :: sleepsFrom (r + 1) n

/-- If the first `fuel` responses are falsy and `r + fuel = 10`, the loop
runs to exhaustion: it makes `fuel + 1` invocations in total (the final one
happens via the walrus assignment in the failing loop condition), ends with
`retries = 10`, and sleeps `sleepsFrom r fuel`. -/
theorem safe_api_call_go_falsy_prefix {α : Type} (f : Nat → α) (falsy : α → Bool) :
    ∀ (fuel c r : Nat) (s : List Nat), r + fuel = 10 →
      (∀ k, k < fuel → falsy (f (c + k)) = true) →
      safe_api_call_go f falsy fuel c r s =
        (f (c + fuel), 10, c + fuel + 1, s ++ sleepsFrom r fuel) := by
  intro fuel
  induction fuel with
  | zero =>
      intro c r s hr _
      have : r = 10 := by omega
      subst this
      simp [safe_api_call_go_zero, sleepsFrom]
  | succ n ih =>
      intro c r s hr hk
      have hc : falsy (f c) = true := by simpa using hk 0 (by omega)
      rw [safe_api_call_go_succ, if_pos ⟨hc, by omega⟩]
      rw [ih (c + 1) (r + 1) (s ++ [(r + 1) * 5]) (by omega) (fun k hklt => by
        have h2 := hk (k + 1) (by omega)
        have e : c + (k + 1) = c + 1 + k := by omega
        rwa [e] at h2)]
      have e1 : c + 1 + n = c + (n + 1) := by omega
      rw [e1]
      simp [sleepsFrom]

/-- If the very first response is truthy, `safe_api_call` returns it after a
single invocation and no sleep. -/
theorem safe_api_call_first_success {α : Type} (f : Nat → α) (falsy : α → Bool)
    (h : falsy (f 0) = false) :
    safe_api_call f falsy = ⟨Except.ok (f 0), 1, []⟩ := by
  have h9 : (9 : Nat) = 8 + 1 := rfl
  simp only [safe_api_call, h9, safe_api_call_go_succ, h]
  norm_num

/-- A nonempty list is not falsy under Python truth testing. -/
theorem isEmpty_false_of_ne_nil {α : Type} {l : List α} (h : l ≠ []) :
    l.isEmpty = false := by
  cases l with
  | nil => exact absurd rfl h
  | cons a t => rfl

/-! ### C2 -/

/-- C2 counterexample: for an operation that always returns a falsy result,
`safe_api_call` does invoke it exactly 10 times and signal the fatal error,
but the sleeps are 10, 15, ..., 50 seconds (cumulative 270, maximum single
wait 50) — not the 5, 10, ..., 45 seconds the claim states, because
`retries` is incremented before `time.sleep(retries * 5)` is evaluated. -/
theorem safe_api_call_claimed_waits_cex :
    (safe_api_call (fun _ => (false : Bool)) (fun b => !b)).sleeps =
        [10, 15, 20, 25, 30, 35, 40, 45, 50] ∧
    (safe_api_call (fun _ => (false : Bool)) (fun b => !b)).sleeps ≠
        [5, 10, 15, 20, 25, 30, 35, 40, 45] ∧
    (safe_api_call (fun _ => (false : Bool)) (fun b => !b)).calls = 10 ∧
    (safe_api_call (fun _ => (false : Bool)) (fun b => !b)).result = Except.error () ∧
    (safe_api_call (fun _ => (false : Bool)) (fun b => !b)).sleeps.sum = 270 := by
  decide

/-- C2 (amended): when every invocation of the operation returns a falsy
result, `safe_api_call` invokes it exactly 10 times, then signals the fatal
`RuntimeError`, sleeping between consecutive attempts for strictly linearly
growing waits of 10, 15, ..., 50 seconds (cumulative 270, maximum single
wait 50 seconds). -/
theorem safe_api_call_always_falsy {α : Type} (f : Nat → α) (falsy : α → Bool)
    (h : ∀ k, falsy (f k) = true) :
    safe_api_call f falsy =
      ⟨Except.error (), 10, [10, 15, 20, 25, 30, 35, 40, 45, 50]⟩ := by
  have hg := safe_api_call_go_falsy_prefix f falsy 9 0 1 [] (by omega)
    (fun k hk => by rw [Nat.zero_add]; exact h k)
  have hs : sleepsFrom 1 9 = [10, 15, 20, 25, 30, 35, 40, 45, 50] := rfl
  rw [hs] at hg
  simp only [safe_api_call, hg]
  norm_num

/-- Witness for C2 (amended), at a concretely always-false operation. -/
theorem safe_api_call_always_falsy_witness :
    safe_api_call (fun _ => (false : Bool)) (fun b => !b) =
      ⟨Except.error (), 10, [10, 15, 20, 25, 30, 35, 40, 45, 50]⟩ :=
  safe_api_call_always_falsy (fun _ => false) (fun b => !b) (fun _ => rfl)

/-! ### C10 -/

/-- C10: if the operation returns a falsy result on each of its first 9
invocations and a truthy result on the 10th, `safe_api_call` still raises the
fatal `RuntimeError` (and still makes exactly 10 invocations): the success
obtained on the 10th attempt is discarded, because the `retries >= 10` check
does not look at the final response. -/
theorem safe_api_call_tenth_success_discarded {α : Type} (f : Nat → α)
    (falsy : α → Bool) (h9 : ∀ k, k < 9 → falsy (f k) = true)
    (_h10 : falsy (f 9) = false) :
    (safe_api_call f falsy).result = Except.error () ∧
    (safe_api_call f falsy).calls = 10 := by
  have hg := safe_api_call_go_falsy_prefix f falsy 9 0 1 [] (by omega)
    (fun k hk => by rw [Nat.zero_add]; exact h9 k hk)
  simp only [safe_api_call, hg]
  norm_num

/-- Witness for C10: an operation that succeeds exactly on its 10th
invocation still yields the fatal error after 10 calls. -/
theorem safe_api_call_tenth_success_discarded_witness :
    (safe_api_call (fun k => k == 9) (fun b => !b)).result = Except.error () ∧
    (safe_api_call (fun k => k == 9) (fun b => !b)).calls = 10 :=
  safe_api_call_tenth_success_discarded (fun k => k == 9) (fun b => !b)
    (by decide) (by decide)

/-! ### Concrete environments used by witnesses and counterexamples -/

/-- A template with empty fixed text: the comment is exactly the five fields
in order. -/
def tplEmpty : Template := ⟨"", "", "", "", "", ""⟩

/-- An environment whose article fetch always raises (models a network
failure), with public-suffix extraction constantly `example.com`. -/
def envW : Env :=
  { login := fun _ => true
    pageFetch := fun _ _ => []
    extract := fun _ => ("example", "com")
    http := fun _ => none
    scrape_html := fun _ => none
    get_summary := fun _ => none
    tpl := tplEmpty }

/-- A plain HTML response whose body is `"page"` under every encoding. -/
def respW : Response := ⟨"text/html", "utf-8", fun _ => "page"⟩

/-- An environment whose whole per-post pipeline succeeds, with the
summarizer reporting reduction `r`, sentences `S1`, `S2` and words `foo`,
`bar`. -/
def envGate (r : Int) : Env :=
  { envW with
    http := fun _ => some respW
    scrape_html := fun _ => some ("T", "D", "B")
    get_summary := fun _ => some ⟨r, ["S1", "S2"], ["foo", "bar"]⟩ }

/-- The successful-pipeline environment at the spec scenario reduction 75. -/
def envOk : Env := envGate 75

/-- The spec end-to-end scenario post `{id: "p1", url: "http://amp.example.com/a"}`. -/
def postW : Post := ⟨"p1", "ap1", some "http://amp.example.com/a", false⟩

/-! ### C1 -/

/-- C1 counterexample: in a run where the post URL's registrable domain
`example.com` is blocklisted, the loop body performs no event at all — in
particular `update_log` is never called, so the post id `p1` is NOT written
to the processed-posts store, contrary to the claim (line 97 of
`summary_bot.py` is a bare `continue`). -/
theorem blocklisted_post_not_logged_cex :
    process_post envW ["example.com"] [] postW = [] ∧
    Event.updateLog "p1" ∉ process_post envW ["example.com"] [] postW := by
  decide

/-- C1 (amended): for every post in the fetched feed whose URL's registrable
domain is in the blocklist, `run_bot` never invokes the article fetch or any
downstream stage for that post, and — unlike the claim — the post id is NOT
written to the processed-posts store either: the loop body emits no event and
moves to the next post. -/
theorem blocklisted_post_skipped_unlogged (env : Env) (bl proc : List String)
    (p : Post) (u : String) (hu : p.url = some u) (hp : p.id ∉ proc)
    (hb : blocklist_key env u ∈ bl) :
    process_post env bl proc p = [] ∧
    logged_ids (process_post env bl proc p) = [] ∧
    ∀ rest, run_bot_loop env bl proc (p :: rest) = run_bot_loop env bl proc rest := by
  have h1 : process_post env bl proc p = [] := by
    simp [process_post, hu, hp, hb]
  exact ⟨h1, by simp [h1, logged_ids], fun rest => by simp [run_bot_loop, h1]⟩

/-- Witness for C1 (amended) at the blocklisted spec scenario post. -/
theorem blocklisted_post_skipped_unlogged_witness :
    process_post envW ["example.com"] [] postW = [] :=
  (blocklisted_post_skipped_unlogged envW ["example.com"] [] postW
    "http://amp.example.com/a" rfl (by decide) (by decide)).1

/-! ### C5 -/

/-- C5: for every post id contained in the processed-posts store at the start
of a cycle, the loop body of `run_bot` performs no article fetch, no scrape
or summarize call, no comment rendering and no log write for that post — it
emits no event at all, and the loop over the feed behaves as if the post were
absent. -/
theorem processed_post_skipped (env : Env) (bl proc : List String) (p : Post)
    (hp : p.id ∈ proc) :
    process_post env bl proc p = [] ∧
    ∀ rest, run_bot_loop env bl proc (p :: rest) = run_bot_loop env bl proc rest := by
  have h1 : process_post env bl proc p = [] := by
    cases hu : p.url with
    | none => simp [process_post, hu]
    | some u => simp [process_post, hu, hp]
  exact ⟨h1, fun rest => by simp [run_bot_loop, h1]⟩

/-- Witness for C5: a post whose id is already in the store produces no
events even in an environment where the whole pipeline would succeed. -/
theorem processed_post_skipped_witness :
    process_post envOk [] ["p1"] postW = [] :=
  (processed_post_skipped envOk [] ["p1"] postW (by decide)).1

/-! ### C6 -/

/-- C6: every per-post error raised while fetching, scraping or summarizing a
single post is contained in the loop body: the post id is written to the
processed store, no comment is produced for the post, and the loop continues
with the remaining posts. -/
theorem per_post_failure_contained (env : Env) (bl proc : List String) (p : Post)
    (u : String) (hu : p.url = some u) (hp : p.id ∉ proc)
    (hb : blocklist_key env u ∉ bl)
    (hfail : env.http (clean_url_of u) = none ∨
      (∃ resp, env.http (clean_url_of u) = some resp ∧
        resp.content_type ∉ blockedContentTypes ∧
        env.scrape_html (html_of resp) = none) ∨
      (∃ resp title date body, env.http (clean_url_of u) = some resp ∧
        resp.content_type ∉ blockedContentTypes ∧
        env.scrape_html (html_of resp) = some (title, date, body) ∧
        env.get_summary body = none)) :
    Event.updateLog p.id ∈ process_post env bl proc p ∧
    (∀ a c, Event.comment a c ∉ process_post env bl proc p) ∧
    ∀ rest, run_bot_loop env bl proc (p :: rest) =
      process_post env bl proc p ++ run_bot_loop env bl proc rest := by
  rcases hfail with hf | ⟨resp, hr, hct, hs⟩ | ⟨resp, title, date, body, hr, hct, hs, hsum⟩
  · have h1 : process_post env bl proc p =
        [Event.fetch (clean_url_of u), Event.updateLog p.id] := by
      simp [process_post, hu, hp, hb, hf]
    exact ⟨by simp [h1], by simp [h1], fun rest => rfl⟩
  · have h1 : process_post env bl proc p =
        [Event.fetch (clean_url_of u), Event.scrape (html_of resp),
         Event.updateLog p.id] := by
      simp [process_post, hu, hp, hb, hr, hct, hs]
    exact ⟨by simp [h1], by simp [h1], fun rest => rfl⟩
  · have h1 : process_post env bl proc p =
        [Event.fetch (clean_url_of u), Event.scrape (html_of resp),
         Event.summarize body, Event.updateLog p.id] := by
      simp [process_post, hu, hp, hb, hr, hct, hs, hsum]
    exact ⟨by simp [h1], by simp [h1], fun rest => rfl⟩

/-- Witness for C6: an article fetch that raises still gets the post id
logged as processed. -/
theorem per_post_failure_contained_witness :
    Event.updateLog "p1" ∈ process_post envW [] [] postW :=
  (per_post_failure_contained envW [] [] postW "http://amp.example.com/a"
    rfl (by decide) (by decide) (Or.inl rfl)).1

/-! ### C4 -/

/-- C4: when the whole per-post pipeline succeeds, a comment is rendered (and
the `Will add new comment` publication step reached) exactly when the
reduction lies in the inclusive band `50 <= reduction <= 96`; inside and
outside the band alike, the post id is written to the processed store. -/
theorem summary_gate_boundary (env : Env) (bl proc : List String) (p : Post)
    (u : String) (resp : Response) (title date body : String) (sd : Summary)
    (hu : p.url = some u) (hp : p.id ∉ proc) (hb : blocklist_key env u ∉ bl)
    (hr : env.http (clean_url_of u) = some resp)
    (hct : resp.content_type ∉ blockedContentTypes)
    (hs : env.scrape_html (html_of resp) = some (title, date, body))
    (hsum : env.get_summary body = some sd) :
    ((∃ c, Event.comment p.ap_id c ∈ process_post env bl proc p) ↔
      ((50 : Int) ≤ sd.reduction ∧ sd.reduction ≤ 96)) ∧
    Event.updateLog p.id ∈ process_post env bl proc p := by
  by_cases hg : (50 : Int) ≤ sd.reduction ∧ sd.reduction ≤ 96
  · have h1 : process_post env bl proc p =
        [Event.fetch (clean_url_of u), Event.scrape (html_of resp),
         Event.summarize body,
         Event.comment p.ap_id (env.tpl.format title (clean_url_of u)
            sd.reduction date (quotedBody sd.top_sentences)),
         Event.updateLog p.id] := by
      simp [process_post, hu, hp, hb, hr, hct, hs, hsum,
        MINIMUM_REDUCTION_THRESHOLD, MAXIMUM_REDUCTION_THRESHOLD, hg.1, hg.2]
    refine ⟨?_, by simp [h1]⟩
    rw [h1]
    exact ⟨fun _ => hg, fun _ =>
      ⟨env.tpl.format title (clean_url_of u) sd.reduction date
          (quotedBody sd.top_sentences), by simp⟩⟩
  · have h1 : process_post env bl proc p =
        [Event.fetch (clean_url_of u), Event.scrape (html_of resp),
         Event.summarize body, Event.updateLog p.id] := by
      simp [process_post, hu, hp, hb, hr, hct, hs, hsum,
        MINIMUM_REDUCTION_THRESHOLD, MAXIMUM_REDUCTION_THRESHOLD, hg]
    refine ⟨?_, by simp [h1]⟩
    rw [h1]
    constructor
    · rintro ⟨c, hc⟩
      simp at hc
    · intro hcontr
      exact absurd hcontr hg

/-- Witness for C4, at the boundary reductions 50 (publishes) and 97 (does
not publish). -/
theorem summary_gate_boundary_witness :
    ((∃ c, Event.comment "ap1" c ∈ process_post (envGate 50) [] [] postW) ↔
      ((50 : Int) ≤ (50 : Int) ∧ (50 : Int) ≤ 96)) ∧
    ((∃ c, Event.comment "ap1" c ∈ process_post (envGate 97) [] [] postW) ↔
      ((50 : Int) ≤ (97 : Int) ∧ (97 : Int) ≤ 96)) :=
  ⟨(summary_gate_boundary (envGate 50) [] [] postW "http://amp.example.com/a"
      respW "T" "D" "B" ⟨50, ["S1", "S2"], ["foo", "bar"]⟩
      rfl (by decide) (by decide) rfl (by decide) rfl rfl).1,
   (summary_gate_boundary (envGate 97) [] [] postW "http://amp.example.com/a"
      respW "T" "D" "B" ⟨97, ["S1", "S2"], ["foo", "bar"]⟩
      rfl (by decide) (by decide) rfl (by decide) rfl rfl).1⟩

/-! ### C3 -/

/-- C3 counterexample: in the spec end-to-end scenario (top sentences `S1`,
`S2`, top words `foo`, `bar`, reduction 75, empty-fixed-text template), the
produced comment contains the two block-quoted sentences joined by a blank
line, and the ranked word list `foo^#1 bar^#2 ` IS computed — but the comment
does NOT contain it, because `run_bot` passes only (title, url, reduction,
date, quoted body) to the template and the accumulated `top_words` string is
never used. -/
theorem comment_word_list_cex :
    process_post envOk [] [] postW =
      [Event.fetch "http://example.com/a", Event.scrape "page",
       Event.summarize "B",
       Event.comment "ap1" "Thttp://example.com/a75D> S1\n\n> S2",
       Event.updateLog "p1"] ∧
    rankWords ["foo", "bar"] = "foo^#1 bar^#2 " ∧
    containsSeq ("> S1\n\n> S2").data ("Thttp://example.com/a75D> S1\n\n> S2").data = true ∧
    containsSeq ("foo^#1 bar^#2 ").data ("Thttp://example.com/a75D> S1\n\n> S2").data = false := by
  decide

/-- C3 (amended): for a gated-in post whose summary has top sentences `S1`,
`S2` and top words `foo`, `bar`, the comment produced by `run_bot` is the
template applied to (title, cleaned url, reduction, date, quoted body), where
the quoted body is the two sentences each on its own block-quoted line joined
by a blank line; the ranked word list `foo^#1 bar^#2 ` (each top word
suffixed with its 1-based rank marker, concatenated with single spaces) is
computed as the claim describes, but it is not among the template fields and
so does not appear in the comment. -/
theorem comment_word_list_amended (env : Env) (bl proc : List String) (p : Post)
    (u : String) (resp : Response) (title date body : String) (r : Int)
    (hu : p.url = some u) (hp : p.id ∉ proc) (hb : blocklist_key env u ∉ bl)
    (hr : env.http (clean_url_of u) = some resp)
    (hct : resp.content_type ∉ blockedContentTypes)
    (hs : env.scrape_html (html_of resp) = some (title, date, body))
    (hsum : env.get_summary body = some ⟨r, ["S1", "S2"], ["foo", "bar"]⟩)
    (hg : (50 : Int) ≤ r ∧ r ≤ 96) :
    Event.comment p.ap_id
        (env.tpl.format title (clean_url_of u) r date "> S1\n\n> S2") ∈
      process_post env bl proc p ∧
    rankWords ["foo", "bar"] = "foo^#1 bar^#2 " := by
  have hq : quotedBody ["S1", "S2"] = "> S1\n\n> S2" := rfl
  have h1 : process_post env bl proc p =
      [Event.fetch (clean_url_of u), Event.scrape (html_of resp),
       Event.summarize body,
       Event.comment p.ap_id (env.tpl.format title (clean_url_of u) r date
          "> S1\n\n> S2"),
       Event.updateLog p.id] := by
    simp [process_post, hu, hp, hb, hr, hct, hs, hsum, hq,
      MINIMUM_REDUCTION_THRESHOLD, MAXIMUM_REDUCTION_THRESHOLD, hg.1, hg.2]
  exact ⟨by simp [h1], rfl⟩

/-- Witness for C3 (amended) at the spec end-to-end scenario. -/
theorem comment_word_list_amended_witness :
    Event.comment "ap1"
        (tplEmpty.format "T" (clean_url_of "http://amp.example.com/a") 75 "D"
          "> S1\n\n> S2") ∈
      process_post envOk [] [] postW ∧
    rankWords ["foo", "bar"] = "foo^#1 bar^#2 " :=
  comment_word_list_amended envOk [] [] postW "http://amp.example.com/a"
    respW "T" "D" "B" 75 rfl (by decide) (by decide) rfl (by decide) rfl rfl
    (by decide)

/-! ### C7 -/

/-- C7 counterexample: `clean_url = post['url'].replace("amp.", "")` removes
every occurrence of the substring `amp.`, not only an `amp.` subdomain prefix
segment — here a URL with no `amp.` subdomain at all has its path altered. -/
theorem amp_normalization_cex :
    clean_url_of "http://example.com/amp.html" = "http://example.com/html" ∧
    clean_url_of "http://example.com/amp.html" ≠ "http://example.com/amp.html" := by
  decide

/-- C7 (amended): before blocklist matching, the post URL is normalized by
deleting every occurrence of the substring `amp.` anywhere in the URL (so an
`amp.` subdomain is stripped, but other occurrences are deleted as well, and
other parts of the URL are not necessarily left intact), and the blocklist
key is `domain.suffix` as produced by the public-suffix-aware extractor
(`tldextract`) applied to the normalized URL; the blocklist decision for the
post is taken on exactly that key. -/
theorem amp_normalization_and_key (env : Env) (proc : List String) (p : Post)
    (u : String) (hu : p.url = some u) (hp : p.id ∉ proc) :
    (∀ bl, blocklist_key env u ∈ bl → process_post env bl proc p = []) ∧
    (∀ bl, blocklist_key env u ∉ bl →
      (process_post env bl proc p).head? =
        some (Event.fetch (pyReplace u "amp." ""))) ∧
    blocklist_key env u =
      (env.extract (pyReplace u "amp." "")).1 ++ "." ++
        (env.extract (pyReplace u "amp." "")).2 := by
  refine ⟨fun bl hb => by simp [process_post, hu, hp, hb], fun bl hb => ?_, rfl⟩
  simp [process_post, hu, hp, hb, clean_url_of]

/-- Witness for C7 (amended): the spec scenario URL, once with its extracted
registrable domain blocklisted and once with an empty blocklist. -/
theorem amp_normalization_and_key_witness :
    process_post envOk ["example.com"] [] postW = [] ∧
    (process_post envOk [] [] postW).head? =
      some (Event.fetch (pyReplace "http://amp.example.com/a" "amp." "")) :=
  ⟨(amp_normalization_and_key envOk [] postW "http://amp.example.com/a" rfl
      (by decide)).1 ["example.com"] (by decide),
   (amp_normalization_and_key envOk [] postW "http://amp.example.com/a" rfl
      (by decide)).2.1 [] (by decide)⟩

/-! ### C9 -/

/-- C9: after a successful article GET, if the decoded response text contains
the literal marker `iso-8859-1` case-insensitively, the body handed to the
scraper is re-decoded as ISO-8859-1; otherwise, if the declared encoding is
exactly `ISO-8859-1`, the body is re-decoded as UTF-8; in all other cases the
decoding is left unchanged. -/
theorem encoding_correction :
    (∀ resp : Response,
      containsSeq ("iso-8859-1").data (lowerData (resp.text resp.encoding)) = true →
      html_of resp = resp.text "iso-8859-1") ∧
    (∀ resp : Response,
      containsSeq ("iso-8859-1").data (lowerData (resp.text resp.encoding)) = false →
      resp.encoding = "ISO-8859-1" → html_of resp = resp.text "utf-8") ∧
    (∀ resp : Response,
      containsSeq ("iso-8859-1").data (lowerData (resp.text resp.encoding)) = false →
      resp.encoding ≠ "ISO-8859-1" → html_of resp = resp.text resp.encoding) := by
  refine ⟨fun resp h => ?_, fun resp h h2 => ?_, fun resp h h2 => ?_⟩
  · unfold html_of fix_encoding
    rw [if_pos h]
  · unfold html_of fix_encoding
    rw [if_neg (by simp [h]), if_pos h2]
  · unfold html_of fix_encoding
    rw [if_neg (by simp [h]), if_neg h2]

/-- A response whose body contains the marker `iso-8859-1`. -/
def respMarker : Response := ⟨"text/html", "utf-8", fun _ => "x iso-8859-1"⟩

/-- A marker-free response declaring `ISO-8859-1`. -/
def respDeclared : Response := ⟨"text/html", "ISO-8859-1", fun _ => "hello"⟩

/-- A marker-free response declaring an unrelated encoding. -/
def respOther : Response := ⟨"text/html", "windows-1252", fun _ => "hello"⟩

/-- Witness for C9, covering all three branches at concrete responses. -/
theorem encoding_correction_witness :
    html_of respMarker = respMarker.text "iso-8859-1" ∧
    html_of respDeclared = respDeclared.text "utf-8" ∧
    html_of respOther = respOther.text respOther.encoding :=
  ⟨encoding_correction.1 respMarker (by decide),
   encoding_correction.2.1 respDeclared (by decide) rfl,
   encoding_correction.2.2 respOther (by decide) (by decide)⟩

/-! ### C8 -/

/-- C8: when every page's first fetch attempt returns a nonempty response,
`get_posts_deep` fetches exactly the 5 feed pages in page order 1..5 (each
through `safe_api_call`), keeps from each page only entries whose post is not
deleted (additionally only saved entries when `saved_only` is requested), and
returns their concatenation in page-then-item order; with 5 pages whose
non-deleted entries number 20 each it returns exactly 100 posts. -/
theorem get_posts_deep_pages (pf : Nat → Nat → List Entry)
    (h : ∀ i, pf i 0 ≠ []) :
    (get_posts_deep pf false = Except.ok
      (((pf 1 0).filter (fun e => !e.post.deleted)).map Entry.post ++
       ((pf 2 0).filter (fun e => !e.post.deleted)).map Entry.post ++
       ((pf 3 0).filter (fun e => !e.post.deleted)).map Entry.post ++
       ((pf 4 0).filter (fun e => !e.post.deleted)).map Entry.post ++
       ((pf 5 0).filter (fun e => !e.post.deleted)).map Entry.post)) ∧
    (get_posts_deep pf true = Except.ok
      (((pf 1 0).filter (fun e => !e.post.deleted && e.saved)).map Entry.post ++
       ((pf 2 0).filter (fun e => !e.post.deleted && e.saved)).map Entry.post ++
       ((pf 3 0).filter (fun e => !e.post.deleted && e.saved)).map Entry.post ++
       ((pf 4 0).filter (fun e => !e.post.deleted && e.saved)).map Entry.post ++
       ((pf 5 0).filter (fun e => !e.post.deleted && e.saved)).map Entry.post)) ∧
    ((∀ i ∈ ([1, 2, 3, 4, 5] : List Nat),
        ((pf i 0).filter (fun e => !e.post.deleted)).length = 20) →
      ∃ l, get_posts_deep pf false = Except.ok l ∧ l.length = 100) := by
  have hcall : ∀ i, safe_api_call (fun k => pf i k) (fun l => l.isEmpty) =
      ⟨Except.ok (pf i 0), 1, []⟩ := fun i =>
    safe_api_call_first_success (fun k => pf i k) (fun l => l.isEmpty)
      (isEmpty_false_of_ne_nil (h i))
  have h1 : get_posts_deep pf false = Except.ok
      (((pf 1 0).filter (fun e => !e.post.deleted)).map Entry.post ++
       ((pf 2 0).filter (fun e => !e.post.deleted)).map Entry.post ++
       ((pf 3 0).filter (fun e => !e.post.deleted)).map Entry.post ++
       ((pf 4 0).filter (fun e => !e.post.deleted)).map Entry.post ++
       ((pf 5 0).filter (fun e => !e.post.deleted)).map Entry.post) := by
    simp [get_posts_deep, hcall]
  have h2 : get_posts_deep pf true = Except.ok
      (((pf 1 0).filter (fun e => !e.post.deleted && e.saved)).map Entry.post ++
       ((pf 2 0).filter (fun e => !e.post.deleted && e.saved)).map Entry.post ++
       ((pf 3 0).filter (fun e => !e.post.deleted && e.saved)).map Entry.post ++
       ((pf 4 0).filter (fun e => !e.post.deleted && e.saved)).map Entry.post ++
       ((pf 5 0).filter (fun e => !e.post.deleted && e.saved)).map Entry.post) := by
    simp [get_posts_deep, hcall]
  refine ⟨h1, h2, fun h20 => ⟨_, h1, ?_⟩⟩
  simp [List.length_append, List.length_map,
    h20 1 (by decide), h20 2 (by decide), h20 3 (by decide),
    h20 4 (by decide), h20 5 (by decide)]

/-- A fixed non-deleted, non-saved feed entry. -/
def entryW : Entry := ⟨⟨"x", "apx", none, false⟩, false⟩

/-- Witness for C8: a feed of 5 pages of 20 non-deleted items yields exactly
100 posts. -/
theorem get_posts_deep_pages_witness :
    ∃ l, get_posts_deep (fun _ _ => List.replicate 20 entryW) false =
        Except.ok l ∧ l.length = 100 :=
  (get_posts_deep_pages (fun _ _ => List.replicate 20 entryW)
    (fun _ => by simp)).2.2 (by decide)
